import Mathlib

/-!
Shallow embedding of the turmoil core under verification: the link/fault
configuration model (`src/config.rs`) and the TCP listener
bind/accept/local_addr/drop path (`src/net/tcp/listener.rs`).

Machine conventions:
* `Duration` is a number of nanoseconds (`Duration::from_secs n` is
  `n * 10^9`, `Duration::from_millis n` is `n * 10^6`).
* `f64` configuration constants (`fail_rate`, `repair_rate`, the exponential
  rate `λ`) are embedded as rationals: every constant appearing in the source
  is exactly representable.
* A Rust `panic` is modelled by the `PanicOr.panic` constructor; `Result` is
  `Except String`.
* `SystemTime::now()` is nondeterministic, so `Config.default` takes the
  current instant as an explicit parameter.
-/

/-- Outcome of a call that may abort with a Rust panic (`expect`, an explicit
panic branch): either the fault with its message or the returned value. -/
inductive PanicOr (α : Type) where
  | panic (msg : String)
  | ok (v : α)
deriving DecidableEq

/-- True exactly on the fault constructor. -/
def PanicOr.isPanic {α : Type} : PanicOr α → Bool
  | .panic _ => true
  | .ok _ => false

/-- Rust `std::time::Duration`, embedded as nanoseconds. -/
abbrev Duration := Nat

/-- `Duration::from_secs`. -/
def Duration.from_secs (s : Nat) : Duration := s * 1000000000

/-- `Duration::from_millis`. -/
def Duration.from_millis (ms : Nat) : Duration := ms * 1000000

/-- `rand_distr::Exp<f64>`: an exponential distribution carrying its rate. -/
structure Exp where
  lambda : ℚ
deriving DecidableEq

instance : Inhabited Exp := ⟨⟨1⟩⟩

/-- `Exp::new` succeeds for a positive rate (`rand_distr` rejects `λ ≤ 0`). -/
def Exp.new (lambda : ℚ) : Option Exp :=
  if 0 < lambda then some ⟨lambda⟩ else none

/-- `Config` from `src/config.rs`: duration, tick and epoch. -/
structure Config where
  duration : Duration
  tick : Duration
  epoch : Nat
deriving DecidableEq

/-- `Latency` from `src/config.rs`. -/
structure Latency where
  min_message_latency : Duration
  max_message_latency : Duration
  latency_distribution : Exp
deriving DecidableEq

/-- `MessageLoss` from `src/config.rs`. -/
structure MessageLoss where
  fail_rate : ℚ
  repair_rate : ℚ
deriving DecidableEq

/-- `Link` from `src/config.rs`: both facets are optional. -/
structure Link where
  latency : Option Latency
  message_loss : Option MessageLoss
deriving DecidableEq

/-- `impl Default for Config`: ten seconds total, one-millisecond ticks, and
the current instant as the epoch (passed explicitly, as `SystemTime::now()` is
an effect). -/
def Config.default (now : Nat) : Config :=
  { duration := Duration.from_secs 10
    tick := Duration.from_millis 1
    epoch := now }

/-- `impl Default for Latency`: bounds `[0ms, 100ms]` and `Exp::new(5.0).unwrap()`. -/
def Latency.default : Latency :=
  { min_message_latency := Duration.from_millis 0
    max_message_latency := Duration.from_millis 100
    latency_distribution := (Exp.new 5).get! }

/-- `impl Default for MessageLoss`: `fail_rate = 0.0`, `repair_rate = 1.0`. -/
def MessageLoss.default : MessageLoss :=
  { fail_rate := 0
    repair_rate := 1 }

/-- `impl Default for Link` is derived: both `Option` fields default to `None`. -/
def Link.default : Link :=
  { latency := none
    message_loss := none }

/-- `Link::latency`: `self.latency.as_ref().expect(..)`. -/
def Link.latencyRef (l : Link) : PanicOr Latency :=
  match l.latency with
  | some v => .ok v
  | none => .panic ("`Latency` missing")

/-- `Link::latency_mut`: `self.latency.as_mut().expect(..)`; the returned
mutable borrow is modelled by the borrowed value itself. -/
def Link.latency_mut (l : Link) : PanicOr Latency :=
  match l.latency with
  | some v => .ok v
  | none => .panic ("`Latency` missing")

/-- `Link::message_loss`: `self.message_loss.as_ref().expect(..)`. -/
def Link.messageLossRef (l : Link) : PanicOr MessageLoss :=
  match l.message_loss with
  | some v => .ok v
  | none => .panic ("`MessageLoss` missing")

/-- `Link::message_loss_mut`: `self.message_loss.as_mut().expect(..)`. -/
def Link.message_loss_mut (l : Link) : PanicOr MessageLoss :=
  match l.message_loss with
  | some v => .ok v
  | none => .panic ("`MessageLoss` missing")

/-!
Network model. `TcpListener` itself lives in `src/net/tcp/listener.rs`; the
`Host`/`World` registry and the `host.tcp` socket table it manipulates are
collaborators outside the excerpt, so those operations are modelled from the
spec (each such definition says so in its doc comment).
-/

/-- A socket address: a 32-bit IP value and a port.  `is_unspecified` on the
IP is `ip = 0` (the all-zeroes address `0.0.0.0`). -/
structure SocketAddr where
  ip : Nat
  port : Nat
deriving DecidableEq

/-- `IpAddr::is_unspecified`. -/
def SocketAddr.ipIsUnspecified (a : SocketAddr) : Bool :=
  a.ip == 0

/-- Modelled from the spec: a SYN attempt is "origin address + a one-shot
acknowledgment channel"; the channel is summarised by whether the initiator's
receiving half is still alive, which is exactly what decides `ack.send(())`. -/
structure Syn where
  origin : SocketAddr
  ackOpen : Bool
deriving DecidableEq

/-- Modelled from the spec: the connection's "(local, remote) address pair"
(`SocketPair::new(self.local_addr, origin)` in the source excerpt). -/
structure SocketPair where
  local_addr : SocketAddr
  remote : SocketAddr
deriving DecidableEq

/-- `SocketPair::new`. -/
def SocketPair.new (l r : SocketAddr) : SocketPair :=
  { local_addr := l, remote := r }

/-- Modelled from the spec: an established stream value holding its address
pair and its data channel (`rx`), identified by a channel id. -/
structure TcpStream where
  pair : SocketPair
  rx : Nat
deriving DecidableEq

/-- `TcpStream::new`. -/
def TcpStream.new (p : SocketPair) (rx : Nat) : TcpStream :=
  { pair := p, rx := rx }

/-- `TcpListener` from `src/net/tcp/listener.rs`: the bound address and the
wake-handle (`Arc<Notify>`), the latter identified by an id. -/
structure TcpListener where
  local_addr : SocketAddr
  notify : Nat
deriving DecidableEq

/-- `TcpListener::new`. -/
def TcpListener.new (local_addr : SocketAddr) (notify : Nat) : TcpListener :=
  { local_addr := local_addr, notify := notify }

/-- Modelled from the spec: the host's TCP state — a bind table mapping bound
local addresses to wake-handles, a FIFO queue of pending inbound SYN attempts
keyed by destination address, and a stream table mapping (local, remote)
address pairs to data channels.  Counters supply fresh handle/channel ids. -/
structure Tcp where
  binds : List (SocketAddr × Nat)
  nextNotify : Nat
  pending : List (SocketAddr × Syn)
  streams : List (SocketPair × Nat)
  nextChan : Nat
deriving DecidableEq

/-- Modelled from the spec: a host owns its address and its TCP state. -/
structure Host where
  addr : Nat
  tcp : Tcp
deriving DecidableEq

/-- Modelled from the spec: the view of the `World` the listener code touches —
the currently executing host (reached via the ambient current-host context). -/
structure World where
  host : Host
deriving DecidableEq

/-- Remove and return the first pending SYN attempt addressed to `addr`
(FIFO-by-enqueue order), together with the remaining queue. -/
def popPending (q : List (SocketAddr × Syn)) (addr : SocketAddr) :
    Option (Syn × List (SocketAddr × Syn)) :=
  match q with
  | [] => none
  | (d, s) :: rest =>
    if d = addr then
      some (s, rest)
    else
      match popPending rest addr with
      | none => none
      | some (s2, rest2) => some (s2, (d, s) :: rest2)

/-- Modelled from the spec: `host.tcp.accept(local_addr)` pops one pending SYN
attempt addressed to the listener's bound address from the host's queue,
returning the attempt and its origin, or `None` when nothing is pending. -/
def Tcp.accept (t : Tcp) (addr : SocketAddr) : Option ((Syn × SocketAddr) × Tcp) :=
  match popPending t.pending addr with
  | none => none
  | some (syn, rest) => some ((syn, syn.origin), { t with pending := rest })

/-- Modelled from the spec: `host.tcp.new_stream(pair)` registers a fresh data
channel for the address pair in the host's stream table and returns it. -/
def Tcp.new_stream (t : Tcp) (p : SocketPair) : Nat × Tcp :=
  (t.nextChan,
   { t with streams := (p, t.nextChan) :: t.streams, nextChan := t.nextChan + 1 })

/-- Modelled from the spec: `host.tcp.bind(addr)` — on success the bind table
gains an entry mapping the resolved address to a fresh wake-handle and a
`TcpListener` holding that address and handle is returned; a duplicate bind is
surfaced as a recoverable error result. -/
def Tcp.bind (t : Tcp) (addr : SocketAddr) : Except String (TcpListener × Tcp) :=
  if t.binds.any (fun e => e.1 == addr) then
    .error ("address in use")
  else
    .ok (TcpListener.new addr t.nextNotify,
         { t with
             binds := (addr, t.nextNotify) :: t.binds
             nextNotify := t.nextNotify + 1 })

/-- Modelled from the spec: `host.tcp.unbind(addr)` removes the bind-table
entry for the address from the host. -/
def Tcp.unbind (t : Tcp) (addr : SocketAddr) : Tcp :=
  { t with binds := t.binds.filter (fun e => !(e.1 == addr)) }

/-- Outcome of `TcpListener::bind`: either the explicit panic on a specified
address, or the `io::Result` coming back from the host's bind table. -/
inductive BindOutcome where
  | panic (msg : String)
  | ok (r : Except String (TcpListener × Host))

/-- True exactly on the panic constructor. -/
def BindOutcome.isPanic : BindOutcome → Bool
  | .panic _ => true
  | .ok _ => false

/-- `TcpListener::bind` from `src/net/tcp/listener.rs`, applied to the already
resolved address (`addr.to_socket_addr(&world.dns)` is the external resolution
step): panic unless the IP is unspecified, rewrite the unspecified IP to the
current host's address (`addr.set_ip(host.addr)`), then `host.tcp.bind(addr)`. -/
def TcpListener.bind (addr : SocketAddr) (host : Host) : BindOutcome :=
  if !addr.ipIsUnspecified then
    .panic ("addr is not supported")
  else
    let addr2 : SocketAddr := { addr with ip := host.addr }
    match Tcp.bind host.tcp addr2 with
    | .ok (l, t) => .ok (.ok (l, { host with tcp := t }))
    | .error e => .ok (.error e)

/-- The body of `accept`'s loop (the `World::current` closure): pop a pending
SYN; on `None` fall through; on a popped attempt send the SYN-ACK on its
one-shot channel — if that errors, return `None` early (the pop stays, nothing
else is mutated); otherwise build the pair, register a fresh stream and return
the stream with the peer's address. -/
def acceptStep (l : TcpListener) (h : Host) :
    Option (TcpStream × SocketAddr) × Host :=
  match Tcp.accept h.tcp l.local_addr with
  | none => (none, h)
  | some ((syn, origin), t) =>
    if syn.ackOpen then
      let pair := SocketPair.new l.local_addr origin
      let (rx, t2) := Tcp.new_stream t pair
      (some (TcpStream.new pair rx, origin), { h with tcp := t2 })
    else
      (none, { h with tcp := t })

/-- Where control goes after one execution of the loop body: `accepted v` is
the `return Ok(accepted)` exit; `awaitNotify` is reaching
`self.notify.notified().await`, the suspension on the listener's wake-handle. -/
inductive StepOutcome where
  | accepted (v : TcpStream × SocketAddr)
  | awaitNotify
deriving DecidableEq

/-- One iteration of `accept`'s loop: run the closure; a `Some` result returns
from `accept`, a `None` result reaches the `notified().await` point. -/
def acceptIter (l : TcpListener) (h : Host) : StepOutcome × Host :=
  match acceptStep l h with
  | (some v, h2) => (.accepted v, h2)
  | (none, h2) => (.awaitNotify, h2)

/-- The whole `accept` loop across wake-ups: `fuel` bounds how many loop
iterations run (each `awaitNotify` consumes one wake).  `none` means the call
is still suspended; `some (r, h)` is the value `accept` returned (always built
by `return Ok(accepted)`) with the final host state. -/
def acceptRun (l : TcpListener) :
    Nat → Host → Option (Except String (TcpStream × SocketAddr) × Host)
  | 0, _ => none
  | n + 1, h =>
    match acceptIter l h with
    | (.accepted v, h2) => some (.ok v, h2)
    | (.awaitNotify, h2) => acceptRun l n h2

/-- `TcpListener::local_addr`: `Ok(self.local_addr)`.  Takes `&self` only —
no world or host state is read or written. -/
def TcpListener.localAddr (l : TcpListener) : Except String SocketAddr :=
  .ok l.local_addr

/-- `impl Drop for TcpListener`:
`World::current_if_set(|world| world.current_host_mut().tcp.unbind(self.local_addr))`.
`current_if_set` is modelled from the spec: it runs the closure when a World
is active and is a no-op (rather than a failure) when none is. -/
def TcpListener.drop (l : TcpListener) : Option World → Option World
  | none => none
  | some w =>
    some { w with host := { w.host with tcp := w.host.tcp.unbind l.local_addr } }

/-- C4: `bind` on a resolved address that is specified (non-wildcard) and is
not this host's own address is a hard, non-recoverable error — the call
panics instead of returning an `Err` result; only the unspecified form is
supported. -/
theorem bind_specified_addr_panics (addr : SocketAddr) (host : Host)
    (hs : addr.ipIsUnspecified = false) (_ho : addr.ip ≠ host.addr) :
    (TcpListener.bind addr host).isPanic = true := by
  simp [TcpListener.bind, hs, BindOutcome.isPanic]

/-- Witness for C4: binding `9.9.9.9:80`-style specified address on the host
whose own address is `7` panics. -/
theorem bind_specified_addr_panics_witness :
    (TcpListener.bind ⟨9, 80⟩ ⟨7, ⟨[], 0, [], [], 0⟩⟩).isPanic = true :=
  bind_specified_addr_panics ⟨9, 80⟩ ⟨7, ⟨[], 0, [], [], 0⟩⟩ rfl (by decide)

/-- C5: when the resolved address has an unspecified IP, the address actually
bound — the one held by the returned `TcpListener` and entered into the bind
table — has its IP rewritten to the calling host's concrete address with the
port preserved. -/
theorem bind_unspecified_rewrites_ip (addr : SocketAddr) (host : Host)
    (hu : addr.ipIsUnspecified = true) :
    ∀ l h2, TcpListener.bind addr host = .ok (.ok (l, h2)) →
      l.local_addr.ip = host.addr ∧ l.local_addr.port = addr.port ∧
      (l.local_addr, l.notify) ∈ h2.tcp.binds := by
  intro l h2 hb
  simp only [TcpListener.bind, hu, Bool.not_true, Bool.false_eq_true, if_false,
    Tcp.bind] at hb
  by_cases hany : host.tcp.binds.any (fun e => e.1 == { addr with ip := host.addr })
  · rw [if_pos hany] at hb
    exact absurd (BindOutcome.ok.inj hb) (by simp)
  · rw [if_neg hany] at hb
    obtain ⟨hl, hh⟩ := Prod.mk.injEq .. ▸ Except.ok.inj (BindOutcome.ok.inj hb)
    subst hl
    subst hh
    refine ⟨rfl, rfl, ?_⟩
    simp [TcpListener.new]

/-- Witness for C5: binding the wildcard `0.0.0.0:80` on the host with
address `7` yields a listener bound to `(7, 80)` with a bind-table entry. -/
theorem bind_unspecified_rewrites_ip_witness :
    (TcpListener.new ⟨7, 80⟩ 0).local_addr.ip = 7 ∧
    (TcpListener.new ⟨7, 80⟩ 0).local_addr.port = 80 ∧
    ((TcpListener.new ⟨7, 80⟩ 0).local_addr, (TcpListener.new ⟨7, 80⟩ 0).notify)
      ∈ (⟨7, ⟨[(⟨7, 80⟩, 0)], 1, [], [], 0⟩⟩ : Host).tcp.binds :=
  bind_unspecified_rewrites_ip ⟨0, 80⟩ ⟨7, ⟨[], 0, [], [], 0⟩⟩ rfl
    (TcpListener.new ⟨7, 80⟩ 0) ⟨7, ⟨[(⟨7, 80⟩, 0)], 1, [], [], 0⟩⟩ rfl

/-- C6: for every `Link`, each facet accessor (`latency`, `latency_mut`,
`message_loss`, `message_loss_mut`) panics when the corresponding facet was
never configured and returns the configured value when it is present. -/
theorem link_accessors_fail_fast (l : Link) :
    (l.latency = none → l.latencyRef.isPanic = true ∧ l.latency_mut.isPanic = true) ∧
    (∀ v, l.latency = some v → l.latencyRef = .ok v ∧ l.latency_mut = .ok v) ∧
    (l.message_loss = none →
      l.messageLossRef.isPanic = true ∧ l.message_loss_mut.isPanic = true) ∧
    (∀ v, l.message_loss = some v →
      l.messageLossRef = .ok v ∧ l.message_loss_mut = .ok v) := by
  refine ⟨fun h => ?_, fun v h => ?_, fun h => ?_, fun v h => ?_⟩ <;>
    simp [Link.latencyRef, Link.latency_mut, Link.messageLossRef,
      Link.message_loss_mut, h, PanicOr.isPanic]

/-- Witness for C6: a link with only the latency facet configured returns it
from `latency()` and panics from `message_loss()`. -/
theorem link_accessors_fail_fast_witness :
    (Link.mk (some Latency.default) none).latencyRef = .ok Latency.default ∧
    ((Link.mk (some Latency.default) none).messageLossRef).isPanic = true :=
  ⟨((link_accessors_fail_fast (Link.mk (some Latency.default) none)).2.1
      Latency.default rfl).1,
   ((link_accessors_fail_fast (Link.mk (some Latency.default) none)).2.2.1 rfl).1⟩

/-- C8: a default `Config` has `tick = 1 ms`, `duration = 10 s = 10000 × tick`;
a default `Latency` has bounds `[0 ms, 100 ms]` and rate `λ = 5`; a default
`MessageLoss` has `fail_rate = 0` and `repair_rate = 1`. -/
theorem default_config_values (now : Nat) :
    (Config.default now).tick = Duration.from_millis 1 ∧
    (Config.default now).duration = Duration.from_secs 10 ∧
    (Config.default now).duration = 10000 * (Config.default now).tick ∧
    Latency.default.min_message_latency = Duration.from_millis 0 ∧
    Latency.default.max_message_latency = Duration.from_millis 100 ∧
    Latency.default.latency_distribution.lambda = 5 ∧
    MessageLoss.default.fail_rate = 0 ∧
    MessageLoss.default.repair_rate = 1 := by
  refine ⟨rfl, rfl, ?_, rfl, rfl, ?_, rfl, rfl⟩
  · norm_num [Config.default, Duration.from_secs, Duration.from_millis]
  · decide

/-- C9: `local_addr()` on a listener is infallible — it returns `Ok` of the
bound address the listener was constructed with; the embedding's signature
(`TcpListener → Except String SocketAddr`) reflects that no host or world
state is read or written. -/
theorem local_addr_infallible (a : SocketAddr) (n : Nat) :
    (TcpListener.new a n).localAddr = Except.ok a :=
  rfl

/-- C10: a default-constructed `Link` has both facets unconfigured, so all
four facet accessors panic on it — no implicit default facet is installed. -/
theorem default_link_unconfigured :
    Link.default.latency = none ∧ Link.default.message_loss = none ∧
    Link.default.latencyRef.isPanic = true ∧
    Link.default.latency_mut.isPanic = true ∧
    Link.default.messageLossRef.isPanic = true ∧
    Link.default.message_loss_mut.isPanic = true :=
  ⟨rfl, rfl, rfl, rfl, rfl, rfl⟩

/-- Helper: every value the `accept` loop ever hands back is built by the
single `return Ok(accepted)` exit — an `Err` is never constructed. -/
theorem acceptRun_ok (l : TcpListener) :
    ∀ (n : Nat) (h : Host) (r : Except String (TcpStream × SocketAddr)) (h2 : Host),
      acceptRun l n h = some (r, h2) → ∃ v, r = Except.ok v := by
  intro n
  induction n with
  | zero =>
    intro h r h2 hr
    simp [acceptRun] at hr
  | succ n ih =>
    intro h r h2 hr
    unfold acceptRun at hr
    rcases hiter : acceptIter l h with ⟨out, h3⟩
    rw [hiter] at hr
    cases out with
    | accepted v =>
      simp only [Option.some.injEq, Prod.mk.injEq] at hr
      exact ⟨v, hr.1.symm⟩
    | awaitNotify =>
      exact ih h3 r h2 hr

/-- C1 counterexample: a SYN attempt whose initiator is gone (closed ack
channel) IS pending, yet the loop iteration that pops it ends at the
`notified().await` suspension point on the wake-handle — it does not go back
to the queue check without suspending. -/
theorem accept_nack_suspends_cex :
    (acceptIter ⟨⟨7, 80⟩, 0⟩
        ⟨7, ⟨[(⟨7, 80⟩, 0)], 1, [(⟨7, 80⟩, ⟨⟨9, 1000⟩, false⟩)], [], 0⟩⟩).1
      = StepOutcome.awaitNotify ∧
    popPending [(⟨7, 80⟩, ⟨⟨9, 1000⟩, false⟩)] ⟨7, 80⟩ ≠ none := by
  decide

/-- C1 amended: when the popped attempt's acknowledgment send fails, the
attempt is discarded (the pop stands, nothing else on the host changes) and
control proceeds to `notified().await` — the same suspension point on the
listener's wake-handle as the empty-queue case — before the queue is checked
again. -/
theorem accept_nack_awaits_wake (l : TcpListener) (h : Host) (syn : Syn)
    (rest : List (SocketAddr × Syn))
    (hp : popPending h.tcp.pending l.local_addr = some (syn, rest))
    (ha : syn.ackOpen = false) :
    (acceptIter l h).1 = StepOutcome.awaitNotify ∧
    (acceptIter l h).2 = { h with tcp := { h.tcp with pending := rest } } := by
  simp [acceptIter, acceptStep, Tcp.accept, hp, ha]

/-- Witness for the C1 amendment: a concrete closed-channel attempt ends the
iteration at the wake-handle await. -/
theorem accept_nack_awaits_wake_witness :
    (acceptIter ⟨⟨7, 80⟩, 0⟩ ⟨7, ⟨[], 0, [(⟨7, 80⟩, ⟨⟨9, 9⟩, false⟩)], [], 3⟩⟩).1
      = StepOutcome.awaitNotify :=
  (accept_nack_awaits_wake ⟨⟨7, 80⟩, 0⟩
      ⟨7, ⟨[], 0, [(⟨7, 80⟩, ⟨⟨9, 9⟩, false⟩)], [], 3⟩⟩
      ⟨⟨9, 9⟩, false⟩ [] rfl rfl).1

/-- C2: an iteration that pops an attempt whose acknowledgment send fails
does not return that attempt, adds nothing to the stream table, leaves the
bind table, channel counter and host address untouched (the only mutation is
the queue pop), surfaces no error, and the loop goes on running. -/
theorem accept_nack_invisible (l : TcpListener) (h : Host) (syn : Syn)
    (rest : List (SocketAddr × Syn))
    (hp : popPending h.tcp.pending l.local_addr = some (syn, rest))
    (ha : syn.ackOpen = false) :
    (∀ v, (acceptIter l h).1 ≠ StepOutcome.accepted v) ∧
    (acceptIter l h).2.tcp.streams = h.tcp.streams ∧
    (acceptIter l h).2.tcp.binds = h.tcp.binds ∧
    (acceptIter l h).2.tcp.nextChan = h.tcp.nextChan ∧
    (acceptIter l h).2.tcp.pending = rest ∧
    (acceptIter l h).2.addr = h.addr ∧
    (∀ n, acceptRun l (n + 1) h = acceptRun l n (acceptIter l h).2) := by
  refine ⟨?_, ?_, ?_, ?_, ?_, ?_, ?_⟩ <;>
    simp [acceptIter, acceptStep, Tcp.accept, hp, ha, acceptRun]

/-- Witness for C2: with one closed-channel attempt pending and one
established stream recorded, the iteration leaves the stream table exactly as
it was. -/
theorem accept_nack_invisible_witness :
    (acceptIter ⟨⟨5, 80⟩, 2⟩
        ⟨5, ⟨[(⟨5, 80⟩, 2)], 3, [(⟨5, 80⟩, ⟨⟨8, 10⟩, false⟩)],
             [(SocketPair.new ⟨5, 80⟩ ⟨4, 4⟩, 0)], 1⟩⟩).2.tcp.streams
      = [(SocketPair.new ⟨5, 80⟩ ⟨4, 4⟩, 0)] :=
  (accept_nack_invisible ⟨⟨5, 80⟩, 2⟩
      ⟨5, ⟨[(⟨5, 80⟩, 2)], 3, [(⟨5, 80⟩, ⟨⟨8, 10⟩, false⟩)],
           [(SocketPair.new ⟨5, 80⟩ ⟨4, 4⟩, 0)], 1⟩⟩
      ⟨⟨8, 10⟩, false⟩ [] rfl rfl).2.1

/-- C3: `accept` has a single success exit and no error exit.  An empty queue
suspends the iteration with the host untouched; a returned value comes from
exactly one popped attempt whose acknowledgment send succeeded, carries that
attempt's origin, and registers exactly one fresh stream-table entry for the
(local, remote) pair; and across any number of wake-ups, whatever `accept`
returns is `Ok` — never `Err`. -/
theorem accept_success_exit (l : TcpListener) (h : Host) :
    (popPending h.tcp.pending l.local_addr = none →
      acceptIter l h = (StepOutcome.awaitNotify, h)) ∧
    (∀ v h2, acceptIter l h = (StepOutcome.accepted v, h2) →
      ∃ syn rest, popPending h.tcp.pending l.local_addr = some (syn, rest) ∧
        syn.ackOpen = true ∧
        v = (TcpStream.new (SocketPair.new l.local_addr syn.origin) h.tcp.nextChan,
             syn.origin) ∧
        h2.tcp.streams =
          (SocketPair.new l.local_addr syn.origin, h.tcp.nextChan) :: h.tcp.streams ∧
        h2.tcp.pending = rest) ∧
    (∀ n r h2, acceptRun l n h = some (r, h2) → ∃ v, r = Except.ok v) := by
  refine ⟨fun hp => ?_, fun v h2 hacc => ?_, fun n r h2 hr => acceptRun_ok l n h r h2 hr⟩
  · simp [acceptIter, acceptStep, Tcp.accept, hp]
  · rcases hpop : popPending h.tcp.pending l.local_addr with _ | ⟨syn, rest⟩
    · simp [acceptIter, acceptStep, Tcp.accept, hpop] at hacc
    · by_cases hao : syn.ackOpen
      · refine ⟨syn, rest, rfl, hao, ?_⟩
        simp only [acceptIter, acceptStep, Tcp.accept, Tcp.new_stream, hpop, hao,
          if_true, Prod.mk.injEq, StepOutcome.accepted.injEq] at hacc
        obtain ⟨hv, hh⟩ := hacc
        subst hv
        subst hh
        exact ⟨rfl, rfl, rfl⟩
      · simp only [Bool.not_eq_true] at hao
        simp [acceptIter, acceptStep, Tcp.accept, hpop, hao] at hacc

/-- Witness for C3: an empty queue suspends leaving the host unchanged, and a
live concrete attempt satisfies the success-exit characterisation. -/
theorem accept_success_exit_witness :
    acceptIter ⟨⟨6, 80⟩, 1⟩ ⟨6, ⟨[(⟨6, 80⟩, 1)], 2, [], [], 0⟩⟩
      = (StepOutcome.awaitNotify, ⟨6, ⟨[(⟨6, 80⟩, 1)], 2, [], [], 0⟩⟩) ∧
    ∃ syn rest,
      popPending [(⟨6, 80⟩, ⟨⟨9, 33⟩, true⟩)] ⟨6, 80⟩ = some (syn, rest) ∧
      syn.ackOpen = true := by
  constructor
  · exact (accept_success_exit ⟨⟨6, 80⟩, 1⟩
      ⟨6, ⟨[(⟨6, 80⟩, 1)], 2, [], [], 0⟩⟩).1 rfl
  · obtain ⟨syn, rest, hp, ha, -, -, -⟩ :=
      (accept_success_exit ⟨⟨6, 80⟩, 1⟩
          ⟨6, ⟨[(⟨6, 80⟩, 1)], 2, [(⟨6, 80⟩, ⟨⟨9, 33⟩, true⟩)], [], 0⟩⟩).2.1
        (TcpStream.new (SocketPair.new ⟨6, 80⟩ ⟨9, 33⟩) 0, ⟨9, 33⟩)
        ⟨6, ⟨[(⟨6, 80⟩, 1)], 2, [], [(SocketPair.new ⟨6, 80⟩ ⟨9, 33⟩, 0)], 1⟩⟩
        (by decide)
    exact ⟨syn, rest, hp, ha⟩

/-- C7: dropping a listener removes its bind-table entry from the current
host when the World is still active (other entries, the pending queue and the
stream table are untouched); when the World is already torn down the drop is
a no-op and in particular cannot fail. -/
theorem listener_drop_unbinds_if_world_active (l : TcpListener) (w : World) :
    TcpListener.drop l none = none ∧
    ∃ w2, TcpListener.drop l (some w) = some w2 ∧
      (∀ e ∈ w2.host.tcp.binds, e.1 ≠ l.local_addr) ∧
      (∀ e ∈ w.host.tcp.binds, e.1 ≠ l.local_addr → e ∈ w2.host.tcp.binds) ∧
      w2.host.tcp.pending = w.host.tcp.pending ∧
      w2.host.tcp.streams = w.host.tcp.streams ∧
      w2.host.addr = w.host.addr := by
  refine ⟨rfl, _, rfl, ?_, ?_, rfl, rfl, rfl⟩
  · intro e he
    have hm := List.mem_filter.mp he
    simpa [Tcp.unbind] using hm.2
  · intro e he hne
    refine List.mem_filter.mpr ⟨he, ?_⟩
    simpa [Tcp.unbind] using hne

/-- Witness for C7: dropping the listener for `(7, 80)` with the World active
removes that entry and keeps the entry for `(7, 81)`. -/
theorem listener_drop_unbinds_witness :
    ∃ w2, TcpListener.drop ⟨⟨7, 80⟩, 0⟩
        (some ⟨⟨7, ⟨[(⟨7, 80⟩, 0), (⟨7, 81⟩, 1)], 2, [], [], 0⟩⟩⟩) = some w2 ∧
      (⟨7, 81⟩, 1) ∈ w2.host.tcp.binds := by
  obtain ⟨w2, hd, -, hpres, -, -, -⟩ :=
    (listener_drop_unbinds_if_world_active ⟨⟨7, 80⟩, 0⟩
        ⟨⟨7, ⟨[(⟨7, 80⟩, 0), (⟨7, 81⟩, 1)], 2, [], [], 0⟩⟩⟩).2
  exact ⟨w2, hd, hpres (⟨7, 81⟩, 1) (by simp) (by decide)⟩
